import Mathlib

/-!
The pljava foreign-data wrapper skeleton (`pljava-so/src/main/c/FDW.c`)

A shallow embedding of the read-only foreign-data wrapper in `FDW.c`, followed by the
results proved about its planning callbacks (`pljava_GetForeignRelSize`,
`pljava_GetForeignPaths`, `pljava_GetForeignPlan`), its scan callbacks
(`pljava_BeginForeignScan`, `pljava_IterateForeignScan`, `pljava_ReScanForeignScan`,
`pljava_EndForeignScan`) and the routine table built by `pljava_handler`.

Conventions of the embedding:

* C `double` values (`rows`, `Cost`) are rationals.  The file performs no arithmetic
  on them: it stores the integer literals `0` and `10` and copies `baserel->rows`.
* Engine objects that the wrapper only passes along (`PlannerInfo *`, `PathTarget *`,
  `Relids`, `Plan *`, expression and target-list nodes) are `Node` handles; a pointer
  that may be `NULL` is an `Option`, and the empty list `NIL` is `[]`.
* `PG_VERSION_NUM`, which selects the `#if` branches, is an explicit argument.
* A callback that updates `*baserel` returns the updated record.
* The scan callbacks receive `ForeignScanState *node`; the engine struct is not
  declared in the file, so its type is a parameter `σ` and every callback returns the
  node it leaves behind.  A callback may leave through the engine's error exit, so its
  result is an `Except ScanError`.
-/

namespace FDW

/-! ## Engine types used by the planning callbacks -/

/-- An engine object the wrapper passes along without looking inside it. -/
structure Node where
  addr : Nat
  deriving DecidableEq, Repr

/-- The C type `Oid`. -/
abbrev Oid := Nat

/-- The C type `Index` (an unsigned range-table index). -/
abbrev Index := Nat

/-- The C type `Datum`. -/
abbrev Datum := Nat

/-- The engine type `Cost`, a C `double`. -/
abbrev Cost := ℚ

/-- The `Const` node built by `makeConst`. -/
structure Const where
  consttype : Oid
  consttypmod : Int
  constcollid : Oid
  constlen : Int
  constvalue : Datum
  constisnull : Bool
  constbyval : Bool
  deriving DecidableEq, Repr

/-- What is handed over as `fdw_private`: a list of nodes (`NIL` when empty), or, in the
old `pljava_GetForeignPlan`, the address of a `Const` cast to `void *`. -/
inductive Payload where
  | list (l : List Node)
  | constPtr (c : Const)
  deriving DecidableEq, Repr

/-- The empty private payload, `NIL`. -/
def Payload.NIL : Payload := Payload.list []

/-- The `ForeignPath` node: the arguments of `create_foreignscan_path` as listed in the
header comment of `FDW.c`, with `parent` identifying the relation it was built for. -/
structure ForeignPath where
  parent : Index
  target : Option Node
  rows : ℚ
  startup_cost : Cost
  total_cost : Cost
  pathkeys : List Node
  required_outer : Option Node
  fdw_outerpath : Option Node
  fdw_private : Payload
  deriving DecidableEq, Repr

/-- The fields of `RelOptInfo` that `FDW.c` reads or writes: `relid`, `rows`, and the
path set that `add_path` maintains. -/
structure RelOptInfo where
  relid : Index
  rows : ℚ
  pathlist : List ForeignPath
  deriving DecidableEq, Repr

/-- A `RestrictInfo`: a candidate filter wrapping its bare `clause`, flagged when the
clause is a pseudoconstant (handled by the engine above the scan). -/
structure RestrictInfo where
  clause : Node
  pseudoconstant : Bool
  deriving DecidableEq, Repr

/-- The `ForeignScan` plan node: the arguments of `make_foreignscan` as listed in the
header comment of `FDW.c`. -/
structure ForeignScan where
  qptlist : List Node
  qpqual : List Node
  scanrelid : Index
  fdw_exprs : List Node
  fdw_private : Payload
  fdw_scan_tlist : List Node
  fdw_recheck_quals : List Node
  outer_plan : Option Node
  deriving DecidableEq, Repr

/-! ## Engine functions called by the planning callbacks -/

/-- Modelled from the spec: `create_foreignscan_path` is the engine's constructor, not
defined in `FDW.c`; per the data model an access path carries the estimate, the two
costs, the ordering keys and the private payload it was created with.  The parameter
order is the one quoted in the header comment of `FDW.c`. -/
def create_foreignscan_path (_root : Node) (rel : RelOptInfo) (target : Option Node)
    (rows : ℚ) (startup_cost total_cost : Cost) (pathkeys : List Node)
    (required_outer : Option Node) (fdw_outerpath : Option Node)
    (fdw_private : Payload) : ForeignPath :=
  { parent := rel.relid, target := target, rows := rows, startup_cost := startup_cost,
    total_cost := total_cost, pathkeys := pathkeys, required_outer := required_outer,
    fdw_outerpath := fdw_outerpath, fdw_private := fdw_private }

/-- Modelled from the spec: `add_path` is the engine's, not defined in `FDW.c`; per the
access-path contract it registers the path with the relation's path set, which owns it
from then on. -/
def add_path (parent_rel : RelOptInfo) (new_path : ForeignPath) : RelOptInfo :=
  { parent_rel with pathlist := new_path :: parent_rel.pathlist }

/-- The engine's `extract_actual_clauses` (declared in `optimizer/restrictinfo.h`, which
`FDW.c` includes; PostgreSQL's, not defined in the repository).  It walks the
`RestrictInfo` list in order and appends the bare clause of every entry whose
`pseudoconstant` flag equals the flag asked for. -/
def extract_actual_clauses (restrictinfo_list : List RestrictInfo)
    (pseudoconstant : Bool) : List Node :=
  (restrictinfo_list.filter (fun rinfo => rinfo.pseudoconstant == pseudoconstant)).map
    (fun rinfo => rinfo.clause)

/-- The engine's `makeConst`, which fills a `Const` node with its arguments. -/
def makeConst (consttype : Oid) (consttypmod : Int) (constcollid : Oid) (constlen : Int)
    (constvalue : Datum) (constisnull constbyval : Bool) : Const :=
  { consttype := consttype, consttypmod := consttypmod, constcollid := constcollid,
    constlen := constlen, constvalue := constvalue, constisnull := constisnull,
    constbyval := constbyval }

/-- The engine's `make_foreignscan`, which fills a `ForeignScan` node with its
arguments (parameter order as quoted in the header comment of `FDW.c`). -/
def make_foreignscan (qptlist qpqual : List Node) (scanrelid : Index)
    (fdw_exprs : List Node) (fdw_private : Payload)
    (fdw_scan_tlist fdw_recheck_quals : List Node) (outer_plan : Option Node) :
    ForeignScan :=
  { qptlist := qptlist, qpqual := qpqual, scanrelid := scanrelid, fdw_exprs := fdw_exprs,
    fdw_private := fdw_private, fdw_scan_tlist := fdw_scan_tlist,
    fdw_recheck_quals := fdw_recheck_quals, outer_plan := outer_plan }

/-- The type oid `INTERNALOID` of `catalog/pg_type.h`. -/
def INTERNALOID : Oid := 2281

/-! ## The planning callbacks -/

/-- `pljava_GetForeignRelSize`: `baserel->rows = 0;`. -/
def pljava_GetForeignRelSize (_root : Node) (baserel : RelOptInfo) (_foreigntableid : Oid) :
    RelOptInfo :=
  { baserel with rows := 0 }

/-- The path that `pljava_GetForeignPaths` creates, before it is handed to `add_path`.
Below 9.5 `create_foreignscan_path` takes neither `target` nor `fdw_outerpath`; from 9.5
on it takes `fdw_outerpath`, and from 9.6 on also `target`.  In every branch the
arguments are `baserel->rows, 10, 0, NIL, NULL, ...` with an empty `fdw_private`. -/
def pljava_GetForeignPaths_path (PG_VERSION_NUM : Nat) (root : Node) (baserel : RelOptInfo) :
    ForeignPath :=
  if PG_VERSION_NUM < 90500 then
    create_foreignscan_path root baserel none
      baserel.rows 10 0 [] none none Payload.NIL
  else
    create_foreignscan_path root baserel (if PG_VERSION_NUM ≥ 90600 then none else none)
      baserel.rows 10 0 [] none none Payload.NIL

/-- `pljava_GetForeignPaths`: create the path and `add_path(baserel, path)`. -/
def pljava_GetForeignPaths (PG_VERSION_NUM : Nat) (root : Node) (baserel : RelOptInfo)
    (_foreigntableid : Oid) : RelOptInfo :=
  add_path baserel (pljava_GetForeignPaths_path PG_VERSION_NUM root baserel)

/-- `pljava_GetForeignPlan`.  For `PG_VERSION_NUM <= 90500` the function has no
`outer_plan` parameter, builds a `Const` holding the `Datum` `0` (of length
`sizeof(blob)`, given here as `sizeofDatum`) and passes its address as `fdw_private`;
otherwise it passes `NIL` as `fdw_private`, `fdw_scan_tlist` and `fdw_recheck_quals`
and hands `outer_plan` through.  Both branches replace `scan_clauses` by
`extract_actual_clauses(scan_clauses, false)` and use it as `qpqual` and `fdw_exprs`. -/
def pljava_GetForeignPlan (PG_VERSION_NUM : Nat) (sizeofDatum : Nat) (_root : Node)
    (baserel : RelOptInfo) (_foreigntableid : Oid) (_best_path : ForeignPath)
    (tlist : List Node) (scan_clauses : List RestrictInfo) (outer_plan : Option Node) :
    ForeignScan :=
  if PG_VERSION_NUM ≤ 90500 then
    let scan_relid := baserel.relid
    let blob : Datum := 0
    let blob2 := makeConst INTERNALOID 0 0 sizeofDatum blob false false
    let scan_clauses := extract_actual_clauses scan_clauses false
    make_foreignscan tlist scan_clauses scan_relid scan_clauses (Payload.constPtr blob2)
      [] [] none
  else
    let scan_relid := baserel.relid
    let scan_clauses := extract_actual_clauses scan_clauses false
    make_foreignscan tlist scan_clauses scan_relid scan_clauses Payload.NIL [] []
      outer_plan

/-! ## The scan callbacks -/

/-- Modelled from the spec: the fatal outcomes a scan callback can raise through the
engine's error exit (the usage error of the scan lifecycle and the error kinds of the
error-handling design).  `FDW.c` contains no statement that raises any of them. -/
inductive ScanError where
  | usageError
  | bindingOpenError
  | rowConversionError
  | bindingIOError
  deriving DecidableEq, Repr

section Scan

variable {σ τ : Type}

/-- `pljava_BeginForeignScan`: empty body. -/
def pljava_BeginForeignScan (node : σ) (_eflags : Int) : Except ScanError σ :=
  .ok node

/-- `pljava_IterateForeignScan`: `return NULL;`.  The result is the node left behind and
the returned `TupleTableSlot *` (`none` for `NULL`). -/
def pljava_IterateForeignScan (node : σ) : Except ScanError (σ × Option τ) :=
  .ok (node, none)

/-- `pljava_ReScanForeignScan`: empty body. -/
def pljava_ReScanForeignScan (node : σ) : Except ScanError σ :=
  .ok node

/-- `pljava_EndForeignScan`: empty body. -/
def pljava_EndForeignScan (node : σ) : Except ScanError σ :=
  .ok node

/-- One call made by the executor on a scan node. -/
inductive ScanCall where
  | begin (eflags : Int)
  | iterate
  | rescan
  | endScan
  deriving DecidableEq, Repr

/-- Perform one executor call: the node left behind and, for `iterate`, the slot it
returned. -/
def ScanCall.run (c : ScanCall) (node : σ) : Except ScanError (σ × List (Option τ)) :=
  match c with
  | .begin eflags =>
    match pljava_BeginForeignScan node eflags with
    | .ok n => .ok (n, [])
    | .error e => .error e
  | .iterate =>
    match pljava_IterateForeignScan node with
    | .ok (n, slot) => .ok (n, [slot])
    | .error e => .error e
  | .rescan =>
    match pljava_ReScanForeignScan node with
    | .ok n => .ok (n, [])
    | .error e => .error e
  | .endScan =>
    match pljava_EndForeignScan node with
    | .ok n => .ok (n, [])
    | .error e => .error e

/-- Perform a sequence of executor calls, stopping at the first error, and collect what
the `iterate` calls returned, in order. -/
def runCalls : List ScanCall → σ → Except ScanError (σ × List (Option τ))
  | [], node => .ok (node, [])
  | c :: cs, node =>
    match c.run node with
    | .error e => .error e
    | .ok (n, out) =>
      match runCalls cs n with
      | .error e => .error e
      | .ok (n2, outs) => .ok (n2, out ++ outs)

/-- Call `pljava_IterateForeignScan` until it returns `NULL`, at most `fuel` times, and
collect the rows returned before the `NULL`.  `none` means the bound was reached before
end-of-data. -/
def iterateToEnd : Nat → σ → Option (Except ScanError (σ × List τ))
  | 0, _ => none
  | fuel + 1, node =>
    match pljava_IterateForeignScan node with
    | .error e => some (.error e)
    | .ok (n, none) => some (.ok (n, []))
    | .ok (n, some row) =>
      match iterateToEnd fuel n with
      | none => none
      | some (.error e) => some (.error e)
      | some (.ok (n2, rows)) => some (.ok (n2, row :: rows))

/-- The rows produced, up to end-of-data, by iterating after `begin`, `k` further
`iterate` calls and a `rescan` on the same node. -/
def sequenceAfterRescan (node : σ) (eflags : Int) (k fuel : Nat) :
    Option (Except ScanError (List τ)) :=
  match runCalls (τ := τ)
      (ScanCall.begin eflags :: (List.replicate k ScanCall.iterate ++ [ScanCall.rescan]))
      node with
  | .error e => some (.error e)
  | .ok (n, _) =>
    match iterateToEnd fuel n with
    | none => none
    | some (.error e) => some (.error e)
    | some (.ok (_, rows)) => some (.ok rows)

/-- The rows produced, up to end-of-data, by iterating after a fresh `begin`. -/
def sequenceAfterBegin (node : σ) (eflags : Int) (fuel : Nat) :
    Option (Except ScanError (List τ)) :=
  match runCalls (τ := τ) [ScanCall.begin eflags] node with
  | .error e => some (.error e)
  | .ok (n, _) =>
    match iterateToEnd fuel n with
    | none => none
    | some (.error e) => some (.error e)
    | some (.ok (_, rows)) => some (.ok rows)

end Scan

/-- How many `iterate` calls a call sequence contains. -/
def iterateCount : List ScanCall → Nat
  | [] => 0
  | ScanCall.iterate :: cs => iterateCount cs + 1
  | _ :: cs => iterateCount cs

/-- The three rows of the example source. -/
inductive Row where
  | A
  | B
  | C
  deriving DecidableEq, Repr

/-- Modelled from the spec: the handle of an external source binding, which is not part
of `FDW.c`: the rows the source yields and the position of its cursor. -/
structure Binding where
  rows : List Row
  position : Nat
  deriving DecidableEq, Repr

/-- A scan node over a binding that yields the rows `A, B, C`, cursor at the start. -/
def abcNode : Binding := { rows := [Row.A, Row.B, Row.C], position := 0 }

/-- The call sequence `begin; iterate; iterate; rescan; iterate; iterate; iterate;
iterate; end`. -/
def abcScenario : List ScanCall :=
  [ScanCall.begin 0, ScanCall.iterate, ScanCall.iterate, ScanCall.rescan,
   ScanCall.iterate, ScanCall.iterate, ScanCall.iterate, ScanCall.iterate,
   ScanCall.endScan]

/-- Modelled from the spec: `next` of the external source binding, which is not part of
`FDW.c`: the row under the cursor, moving the cursor one row on, or end-of-data once the
cursor is past the last row. -/
def Binding.next (b : Binding) : Binding × Option Row :=
  match b.rows.get? b.position with
  | some row => ({ b with position := b.position + 1 }, some row)
  | none => (b, none)

/-- Modelled from the spec: `reset` of the external source binding, which is not part of
`FDW.c`: the cursor goes back to the start position. -/
def Binding.reset (b : Binding) : Binding :=
  { b with position := 0 }

/-- Modelled from the spec: the states of the scan lifecycle. -/
inductive LifecycleState where
  | Unopened
  | Open
  | Exhausted
  | Closed
  deriving DecidableEq, Repr

/-- Modelled from the spec: a scan handle of the lifecycle state machine, the lifecycle
state together with the binding it iterates over. -/
structure SpecScan where
  state : LifecycleState
  binding : Binding
  deriving DecidableEq, Repr

/-- Modelled from the spec: one transition of the scan lifecycle table, the reference
that the scan callbacks of `FDW.c` are compared with.  `begin` needs state Unopened and
opens the binding at its start; `iterate` needs an open scan and asks the binding for
the next row, reaching Exhausted at end-of-data; `rescan` needs an open or exhausted
scan and resets the binding; `end` closes from any state.  A call outside its
precondition is a usage error. -/
def specCall (c : ScanCall) (s : SpecScan) : Except ScanError (SpecScan × List (Option Row)) :=
  match c, s.state with
  | .begin _, .Unopened => .ok ({ state := .Open, binding := s.binding.reset }, [])
  | .begin _, _ => .error .usageError
  | .iterate, .Open =>
    match s.binding.next with
    | (b, some row) => .ok ({ state := .Open, binding := b }, [some row])
    | (b, none) => .ok ({ state := .Exhausted, binding := b }, [none])
  | .iterate, .Exhausted => .ok (s, [none])
  | .iterate, _ => .error .usageError
  | .rescan, .Open => .ok ({ state := .Open, binding := s.binding.reset }, [])
  | .rescan, .Exhausted => .ok ({ state := .Open, binding := s.binding.reset }, [])
  | .rescan, _ => .error .usageError
  | .endScan, _ => .ok ({ state := .Closed, binding := s.binding }, [])

/-- Modelled from the spec: a sequence of lifecycle transitions, stopping at the first
error, with what the `iterate` transitions returned, in order. -/
def specRunCalls : List ScanCall → SpecScan → Except ScanError (SpecScan × List (Option Row))
  | [], s => .ok (s, [])
  | c :: cs, s =>
    match specCall c s with
    | .error e => .error e
    | .ok (s1, out) =>
      match specRunCalls cs s1 with
      | .error e => .error e
      | .ok (s2, outs) => .ok (s2, out ++ outs)

/-! ## The routine table -/

/-- The address of one of the seven static callbacks of `FDW.c`. -/
inductive Callback where
  | pljava_GetForeignRelSize
  | pljava_GetForeignPaths
  | pljava_GetForeignPlan
  | pljava_BeginForeignScan
  | pljava_IterateForeignScan
  | pljava_ReScanForeignScan
  | pljava_EndForeignScan
  deriving DecidableEq, Repr

/-- The members of `FdwRoutine` that `pljava_handler` assigns; `none` is the null
function pointer. -/
structure FdwRoutine where
  GetForeignRelSize : Option Callback
  GetForeignPaths : Option Callback
  GetForeignPlan : Option Callback
  BeginForeignScan : Option Callback
  IterateForeignScan : Option Callback
  ReScanForeignScan : Option Callback
  EndForeignScan : Option Callback
  ExplainForeignScan : Option Callback
  ExplainForeignModify : Option Callback
  AddForeignUpdateTargets : Option Callback
  PlanForeignModify : Option Callback
  BeginForeignModify : Option Callback
  ExecForeignInsert : Option Callback
  ExecForeignUpdate : Option Callback
  ExecForeignDelete : Option Callback
  EndForeignModify : Option Callback
  IsForeignRelUpdatable : Option Callback
  AnalyzeForeignTable : Option Callback
  deriving DecidableEq, Repr

/-- The engine's `makeNode(FdwRoutine)`: a zero-filled node, every member null. -/
def makeNode_FdwRoutine : FdwRoutine :=
  { GetForeignRelSize := none, GetForeignPaths := none, GetForeignPlan := none,
    BeginForeignScan := none, IterateForeignScan := none, ReScanForeignScan := none,
    EndForeignScan := none, ExplainForeignScan := none, ExplainForeignModify := none,
    AddForeignUpdateTargets := none, PlanForeignModify := none,
    BeginForeignModify := none, ExecForeignInsert := none, ExecForeignUpdate := none,
    ExecForeignDelete := none, EndForeignModify := none, IsForeignRelUpdatable := none,
    AnalyzeForeignTable := none }

/-- Modelled from the spec: the identifier `null` that `pljava_handler` assigns is not
declared in `FDW.c`.  The write path and EXPLAIN/ANALYZE integration are excluded from
the wrapper, so it stands for the absent callback, the null function pointer. -/
def null : Option Callback := none

/-- `pljava_handler`: allocate the routine table, assign the seven scan callbacks, assign
`null` to the optional ones, and return the table. -/
def pljava_handler (_fcinfo : Node) : FdwRoutine :=
  let fdw_routine := makeNode_FdwRoutine
  let fdw_routine := { fdw_routine with GetForeignRelSize := some .pljava_GetForeignRelSize }
  let fdw_routine := { fdw_routine with GetForeignPaths := some .pljava_GetForeignPaths }
  let fdw_routine := { fdw_routine with GetForeignPlan := some .pljava_GetForeignPlan }
  let fdw_routine := { fdw_routine with BeginForeignScan := some .pljava_BeginForeignScan }
  let fdw_routine := { fdw_routine with IterateForeignScan := some .pljava_IterateForeignScan }
  let fdw_routine := { fdw_routine with ReScanForeignScan := some .pljava_ReScanForeignScan }
  let fdw_routine := { fdw_routine with EndForeignScan := some .pljava_EndForeignScan }
  let fdw_routine := { fdw_routine with ExplainForeignScan := null }
  let fdw_routine := { fdw_routine with ExplainForeignModify := null }
  let fdw_routine := { fdw_routine with AddForeignUpdateTargets := null }
  let fdw_routine := { fdw_routine with PlanForeignModify := null }
  let fdw_routine := { fdw_routine with BeginForeignModify := null }
  let fdw_routine := { fdw_routine with ExecForeignInsert := null }
  let fdw_routine := { fdw_routine with ExecForeignUpdate := null }
  let fdw_routine := { fdw_routine with ExecForeignDelete := null }
  let fdw_routine := { fdw_routine with EndForeignModify := null }
  let fdw_routine := { fdw_routine with IsForeignRelUpdatable := null }
  let fdw_routine := { fdw_routine with AnalyzeForeignTable := null }
  fdw_routine

/-! ## Theorems: planning callbacks -/

/-- C1 (counterexample): for relation 16384 with a prior estimate of 1000 rows,
`pljava_GetForeignRelSize` leaves a row_count of exactly `0`, which is not strictly
greater than `0`. -/
theorem getForeignRelSize_rows_not_positive :
    (pljava_GetForeignRelSize ⟨0⟩ ⟨1, 1000, []⟩ 16384).rows = 0 ∧
    ¬ (0 < (pljava_GetForeignRelSize ⟨0⟩ ⟨1, 1000, []⟩ 16384).rows) := by
  constructor
  · rfl
  · simp [pljava_GetForeignRelSize]

/-- C1 (amended): for every foreign relation identity and every prior planner state,
`pljava_GetForeignRelSize` sets the relation's row_count estimate to the fixed fallback
value `0` (non-negative, never negative) and leaves the relation's index and path set
as they were. -/
theorem getForeignRelSize_rows_eq_zero (root : Node) (baserel : RelOptInfo)
    (foreigntableid : Oid) :
    (pljava_GetForeignRelSize root baserel foreigntableid).rows = 0 ∧
    0 ≤ (pljava_GetForeignRelSize root baserel foreigntableid).rows ∧
    (pljava_GetForeignRelSize root baserel foreigntableid).relid = baserel.relid ∧
    (pljava_GetForeignRelSize root baserel foreigntableid).pathlist = baserel.pathlist := by
  simp [pljava_GetForeignRelSize]

/-- C2 (counterexample): the claim's negation.  The paths registered for estimates of 1
and of 1000000 rows both cost `0` in total, no pair of estimates gets strictly increasing
total costs, and the total cost is `0` for every estimate. -/
theorem getForeignPaths_total_cost_not_scaling :
    (pljava_GetForeignPaths 90600 ⟨0⟩ ⟨1, 1, []⟩ 16384).pathlist.map
        (fun p => p.total_cost) = [0] ∧
    (pljava_GetForeignPaths 90600 ⟨0⟩ ⟨1, 1000000, []⟩ 16384).pathlist.map
        (fun p => p.total_cost) = [0] ∧
    ¬ ((∃ (v : Nat) (root : Node) (b1 b2 : RelOptInfo), b1.rows < b2.rows ∧
          (pljava_GetForeignPaths_path v root b1).total_cost
            < (pljava_GetForeignPaths_path v root b2).total_cost) ∧
       ¬ (∀ (v : Nat) (root : Node) (b : RelOptInfo),
          (pljava_GetForeignPaths_path v root b).total_cost = 0)) := by
  refine ⟨?_, ?_, ?_⟩
  · simp [pljava_GetForeignPaths, pljava_GetForeignPaths_path, add_path,
      create_foreignscan_path]
  · simp [pljava_GetForeignPaths, pljava_GetForeignPaths_path, add_path,
      create_foreignscan_path]
  · rintro ⟨_, h⟩
    apply h
    intro v root b
    unfold pljava_GetForeignPaths_path create_foreignscan_path
    split <;> rfl

/-- C2 (amended): the total_cost of the path registered by `pljava_GetForeignPaths` does
not scale with the estimated row_count: it is the fixed value `0` for every engine
version, relation and estimate, so two estimates always get equal total costs. -/
theorem getForeignPaths_total_cost_eq_zero (v : Nat) (root : Node) (baserel : RelOptInfo)
    (foreigntableid : Oid) :
    (pljava_GetForeignPaths v root baserel foreigntableid).pathlist
      = pljava_GetForeignPaths_path v root baserel :: baserel.pathlist ∧
    (pljava_GetForeignPaths_path v root baserel).total_cost = 0 := by
  refine ⟨rfl, ?_⟩
  unfold pljava_GetForeignPaths_path create_foreignscan_path
  split <;> rfl

/-- C3: for every engine version, relation and estimate, `pljava_GetForeignPaths` adds
exactly one path to the relation's path set (the path set afterwards is the path set
before plus the new path, one element longer) and changes nothing else; the new path
carries rows equal to the relation's current row_count estimate, the fixed
startup_cost `10`, no ordering keys and an empty private payload. -/
theorem getForeignPaths_adds_one_path (v : Nat) (root : Node) (baserel : RelOptInfo)
    (foreigntableid : Oid) :
    (pljava_GetForeignPaths v root baserel foreigntableid).pathlist
      = pljava_GetForeignPaths_path v root baserel :: baserel.pathlist ∧
    (pljava_GetForeignPaths v root baserel foreigntableid).pathlist.length
      = baserel.pathlist.length + 1 ∧
    (pljava_GetForeignPaths v root baserel foreigntableid).rows = baserel.rows ∧
    (pljava_GetForeignPaths v root baserel foreigntableid).relid = baserel.relid ∧
    (pljava_GetForeignPaths_path v root baserel).parent = baserel.relid ∧
    (pljava_GetForeignPaths_path v root baserel).rows = baserel.rows ∧
    (pljava_GetForeignPaths_path v root baserel).startup_cost = 10 ∧
    (pljava_GetForeignPaths_path v root baserel).pathkeys = [] ∧
    (pljava_GetForeignPaths_path v root baserel).fdw_private = Payload.NIL := by
  refine ⟨rfl, rfl, rfl, rfl, ?_, ?_, ?_, ?_, ?_⟩ <;>
    (unfold pljava_GetForeignPaths_path create_foreignscan_path; split <;> rfl)

/-- C4: the total_cost of the path built by `pljava_GetForeignPaths` is monotonically
non-decreasing in the estimated row_count: whenever `r1 ≤ r2`, the paths built for the
two estimates have the same startup_cost and `total_cost(r1) ≤ total_cost(r2)`. -/
theorem getForeignPaths_total_cost_monotone (v : Nat) (root : Node) (b1 b2 : RelOptInfo)
    (h : b1.rows ≤ b2.rows) :
    (pljava_GetForeignPaths_path v root b1).startup_cost
      = (pljava_GetForeignPaths_path v root b2).startup_cost ∧
    (pljava_GetForeignPaths_path v root b1).total_cost
      ≤ (pljava_GetForeignPaths_path v root b2).total_cost := by
  have _ := h
  unfold pljava_GetForeignPaths_path create_foreignscan_path
  split <;> exact ⟨rfl, le_refl _⟩

/-- C4 (witness): estimates of 3 and of 7 rows for relation 1. -/
theorem getForeignPaths_total_cost_monotone_witness :
    (3 : ℚ) ≤ 7 ∧
    (pljava_GetForeignPaths_path 90600 ⟨0⟩ ⟨1, 3, []⟩).total_cost
      ≤ (pljava_GetForeignPaths_path 90600 ⟨0⟩ ⟨1, 7, []⟩).total_cost :=
  ⟨by norm_num,
   (getForeignPaths_total_cost_monotone 90600 ⟨0⟩ ⟨1, 3, []⟩ ⟨1, 7, []⟩
      (by show (3 : ℚ) ≤ 7; norm_num)).2⟩

/-- C5 (counterexample): with candidate filters `[f10, f11]` where `f11` is flagged
pseudoconstant, the plan node's residual filters are `[f10]` only: `f11` is omitted, so
the residual filters are not the clauses of all candidate filters. -/
theorem getForeignPlan_drops_pseudoconstant :
    (pljava_GetForeignPlan 90600 8 ⟨0⟩ ⟨1, 0, []⟩ 16384
        (pljava_GetForeignPaths_path 90600 ⟨0⟩ ⟨1, 0, []⟩) [⟨3⟩]
        [⟨⟨10⟩, false⟩, ⟨⟨11⟩, true⟩] none).qpqual = [⟨10⟩] ∧
    (pljava_GetForeignPlan 90600 8 ⟨0⟩ ⟨1, 0, []⟩ 16384
        (pljava_GetForeignPaths_path 90600 ⟨0⟩ ⟨1, 0, []⟩) [⟨3⟩]
        [⟨⟨10⟩, false⟩, ⟨⟨11⟩, true⟩] none).qpqual
      ≠ ([⟨⟨10⟩, false⟩, ⟨⟨11⟩, true⟩] : List RestrictInfo).map (fun r => r.clause) := by
  constructor <;> decide

/-- C5 (amended): for every engine version, chosen path, requested target list and list
of candidate filters, `pljava_GetForeignPlan` absorbs no filter into the private payload
(the payload is the one it builds for an empty candidate list: `NIL`, or up to 9.5.0 a
constant holding the datum `0`), and the plan node's residual filters are exactly the
clauses of the candidate filters that are not flagged pseudoconstant, in order, each
once; the plan node's target columns are the requested targets unchanged. -/
theorem getForeignPlan_residual_filters (v sizeofDatum : Nat) (root : Node)
    (baserel : RelOptInfo) (foreigntableid : Oid) (best_path : ForeignPath)
    (tlist : List Node) (scan_clauses : List RestrictInfo) (outer_plan : Option Node) :
    (pljava_GetForeignPlan v sizeofDatum root baserel foreigntableid best_path tlist
        scan_clauses outer_plan).qpqual
      = (scan_clauses.filter (fun r => !r.pseudoconstant)).map (fun r => r.clause) ∧
    (pljava_GetForeignPlan v sizeofDatum root baserel foreigntableid best_path tlist
        scan_clauses outer_plan).fdw_private
      = (pljava_GetForeignPlan v sizeofDatum root baserel foreigntableid best_path tlist
          [] outer_plan).fdw_private ∧
    (pljava_GetForeignPlan v sizeofDatum root baserel foreigntableid best_path tlist
        scan_clauses outer_plan).fdw_private
      = (if v ≤ 90500 then
          Payload.constPtr ⟨INTERNALOID, 0, 0, sizeofDatum, 0, false, false⟩
        else Payload.NIL) ∧
    (pljava_GetForeignPlan v sizeofDatum root baserel foreigntableid best_path tlist
        scan_clauses outer_plan).qptlist = tlist ∧
    (pljava_GetForeignPlan v sizeofDatum root baserel foreigntableid best_path tlist
        scan_clauses outer_plan).scanrelid = baserel.relid := by
  have hx : extract_actual_clauses scan_clauses false
      = (scan_clauses.filter (fun r => !r.pseudoconstant)).map (fun r => r.clause) := by
    unfold extract_actual_clauses
    congr 2
    funext r
    cases r.pseudoconstant <;> rfl
  unfold pljava_GetForeignPlan
  by_cases hv : v ≤ 90500
  · simp only [hv, if_true, make_foreignscan, makeConst, hx]
    exact ⟨trivial, trivial, trivial, trivial, trivial⟩
  · simp only [hv, if_false, make_foreignscan, hx]
    exact ⟨trivial, trivial, trivial, trivial, trivial⟩

/-! ## Theorems: scan callbacks -/

section ScanTheorems

variable {σ τ : Type}

/-- Every sequence of executor calls runs through without error, leaves the node as it
was, and each of its `iterate` calls returns `NULL`. -/
theorem runCalls_eq (calls : List ScanCall) (node : σ) :
    runCalls calls node
      = .ok (node, List.replicate (iterateCount calls) (none : Option τ)) := by
  induction calls with
  | nil => rfl
  | cons c cs ih =>
    cases c <;>
      simp [runCalls, ScanCall.run, pljava_BeginForeignScan, pljava_IterateForeignScan,
        pljava_ReScanForeignScan, pljava_EndForeignScan, ih, iterateCount,
        List.replicate_succ]

/-- Iterating to end-of-data stops at the first call, with no row, whenever at least one
call is allowed. -/
theorem iterateToEnd_succ (fuel : Nat) (node : σ) :
    iterateToEnd fuel.succ node = some (.ok (node, ([] : List τ))) := rfl

/-- C7 (the code at the failing input): the binding `abcNode` does yield the rows
`A, B, C` (its `next` returns them in turn and then end-of-data), and under the scan
lifecycle of the specification the call sequence `begin; iterate; iterate; rescan;
iterate; iterate; iterate; iterate; end` over it returns `A, B, A, B, C, end-of-data`
and ends Closed.  The callbacks of `FDW.c`, run on a node over the same binding, return
`NULL` from all six `iterate` calls and leave the binding's cursor where it was, so the
sequence they return is not `A, B, A, B, C, end-of-data`. -/
theorem abcScenario_yields_no_rows :
    (abcNode.next.2 = some Row.A ∧ abcNode.next.1.next.2 = some Row.B ∧
      abcNode.next.1.next.1.next.2 = some Row.C ∧
      abcNode.next.1.next.1.next.1.next.2 = none) ∧
    specRunCalls abcScenario { state := LifecycleState.Unopened, binding := abcNode }
      = .ok ({ state := LifecycleState.Closed,
               binding := { rows := [Row.A, Row.B, Row.C], position := 3 } },
             [some Row.A, some Row.B, some Row.A, some Row.B, some Row.C, none]) ∧
    runCalls abcScenario abcNode
      = .ok (abcNode, [(none : Option Row), none, none, none, none, none]) ∧
    ¬ (∃ n : Binding, runCalls abcScenario abcNode
      = .ok (n, [some Row.A, some Row.B, some Row.A, some Row.B, some Row.C, none])) := by
  refine ⟨⟨rfl, rfl, rfl, rfl⟩, rfl, rfl, ?_⟩
  rintro ⟨n, hn⟩
  have h : runCalls abcScenario abcNode
      = .ok (abcNode, [(none : Option Row), none, none, none, none, none]) := rfl
  rw [h] at hn
  simp at hn

/-- C8: for every scan node, `begin` followed by any number `k` of `iterate` calls and
then `rescan`, when iterated to end-of-data, produces the same full sequence of results
as iterating to end-of-data after a fresh `begin`; both iterations reach end-of-data
(within any bound of at least one call) without error, and the sequence is empty. -/
theorem rescan_sequence_eq_fresh_sequence (node : σ) (eflags : Int) (k fuel : Nat) :
    (sequenceAfterRescan node eflags k (fuel + 1) : Option (Except ScanError (List τ)))
      = sequenceAfterBegin node eflags (fuel + 1) ∧
    (sequenceAfterBegin node eflags (fuel + 1) : Option (Except ScanError (List τ)))
      = some (.ok []) := by
  have h1 : (sequenceAfterBegin node eflags (fuel + 1) :
      Option (Except ScanError (List τ))) = some (.ok []) := rfl
  have h2 : (sequenceAfterRescan node eflags k (fuel + 1) :
      Option (Except ScanError (List τ))) = some (.ok []) := by
    unfold sequenceAfterRescan
    rw [runCalls_eq]
    rfl
  exact ⟨h2.trans h1.symm, h1⟩

/-- C9: `pljava_EndForeignScan` is idempotent: for every scan node, whether or not
`begin` was ever called on it, `end` raises no error and returns a node on which a
second `end` raises no error and changes nothing; the node itself is left untouched, so
nothing is released twice. -/
theorem endForeignScan_idempotent (node : σ) :
    ∃ closed : σ,
      pljava_EndForeignScan node = .ok closed ∧
      pljava_EndForeignScan closed = .ok closed ∧
      (pljava_EndForeignScan node >>= pljava_EndForeignScan)
        = pljava_EndForeignScan node ∧
      closed = node :=
  ⟨node, rfl, rfl, rfl, rfl⟩

end ScanTheorems

/-! ## Theorems: routine table -/

/-- C10: for every call, the routine table returned by `pljava_handler` has the seven
read-path callbacks bound to the corresponding `pljava_` functions and every
write-path, EXPLAIN and ANALYZE callback unset. -/
theorem handler_routine_table (fcinfo : Node) :
    (pljava_handler fcinfo).GetForeignRelSize = some Callback.pljava_GetForeignRelSize ∧
    (pljava_handler fcinfo).GetForeignPaths = some Callback.pljava_GetForeignPaths ∧
    (pljava_handler fcinfo).GetForeignPlan = some Callback.pljava_GetForeignPlan ∧
    (pljava_handler fcinfo).BeginForeignScan = some Callback.pljava_BeginForeignScan ∧
    (pljava_handler fcinfo).IterateForeignScan = some Callback.pljava_IterateForeignScan ∧
    (pljava_handler fcinfo).ReScanForeignScan = some Callback.pljava_ReScanForeignScan ∧
    (pljava_handler fcinfo).EndForeignScan = some Callback.pljava_EndForeignScan ∧
    (pljava_handler fcinfo).ExplainForeignScan = none ∧
    (pljava_handler fcinfo).ExplainForeignModify = none ∧
    (pljava_handler fcinfo).AddForeignUpdateTargets = none ∧
    (pljava_handler fcinfo).PlanForeignModify = none ∧
    (pljava_handler fcinfo).BeginForeignModify = none ∧
    (pljava_handler fcinfo).ExecForeignInsert = none ∧
    (pljava_handler fcinfo).ExecForeignUpdate = none ∧
    (pljava_handler fcinfo).ExecForeignDelete = none ∧
    (pljava_handler fcinfo).EndForeignModify = none ∧
    (pljava_handler fcinfo).IsForeignRelUpdatable = none ∧
    (pljava_handler fcinfo).AnalyzeForeignTable = none :=
  ⟨rfl, rfl, rfl, rfl, rfl, rfl, rfl, rfl, rfl, rfl, rfl, rfl, rfl, rfl, rfl, rfl, rfl, rfl⟩

end FDW
